import Mathlib

/-!
Shallow embedding of the proxyreader core: the reading-session state machine
(reader client components), the chapter-key ordering, the manifest validator
(zod schemas in src/lib/gist.ts), the caching fetchers (src/lib/gist.ts and
src/lib/imgur.ts) and the source resolver.  JavaScript numbers are modelled as
Int (pages) and exact scaled decimals (parseFloat values); fallible code
returns Except;
the process-wide Map caches are association lists threaded explicitly.
-/

namespace ProxyReader

/-! ### Reading-session state machine
From GistReaderClient (src/lib/imgur.ts, second file section) and
ImgurReaderClient: both components share the identical navigation, mount and
page-display logic. -/

/-- View mode of the reader: the source type ViewMode = single | double. -/
inductive ViewMode
  | single
  | double
deriving DecidableEq, Repr

/-- getPageIncrement: viewMode === double ? 2 : 1. -/
def getPageIncrement (m : ViewMode) : Int :=
  match m with
  | .double => 2
  | .single => 1

/-- goToNextPage: setCurrentPage(current => Math.min(current + increment, totalPages)). -/
def goToNextPage (m : ViewMode) (totalPages current : Int) : Int :=
  min (current + getPageIncrement m) totalPages

/-- goToPrevPage: setCurrentPage(current => Math.max(1, current - increment)). -/
def goToPrevPage (m : ViewMode) (current : Int) : Int :=
  max 1 (current - getPageIncrement m)

/-- toggleViewMode: setViewMode(current => current === single ? double : single). -/
def toggleViewMode (m : ViewMode) : ViewMode :=
  match m with
  | .single => .double
  | .double => .single

/-- A stored progress record as read back from localStorage by the mount
effect.  The mount effect only reads the page field (progress.page); the field
is an Option because the stored object may lack it. -/
structure SavedProgress where
  page : Option Int
deriving DecidableEq, Repr

/-- The JavaScript expression progress.page || 1: a missing page field
(undefined) or a page equal to 0 falls back to 1. -/
def pageOrOne (p : Option Int) : Int :=
  match p with
  | none => 1
  | some v => if v = 0 then 1 else v

/-- Outcome of the mount effect: the page seeded by setCurrentPage, and
whether localStorage.removeItem was called on the progress key. -/
structure MountResult where
  page : Int
  removedRecord : Bool
deriving DecidableEq, Repr

/-- The mount effect of the reader clients.  savedProgress models
localStorage.getItem on the progress key: none when no record is stored,
some (Except.error ()) when a record is stored but JSON.parse throws, and
some (Except.ok p) when it parses to p.  On a parse failure the record is
removed and the page stays at the initial 1; otherwise the page is
Math.max(1, Math.min(progress.page || 1, pages.length || 1)). -/
def mountEffect (savedProgress : Option (Except Unit SavedProgress))
    (pagesLength : Int) : MountResult :=
  match savedProgress with
  | none => ⟨1, false⟩
  | some (.error _) => ⟨1, true⟩
  | some (.ok p) =>
      ⟨max 1 (min (pageOrOne p.page) (if pagesLength = 0 then 1 else pagesLength)), false⟩

/-- getPageDisplay: the page-counter label.  The source returns "0 / 0" when
totalPages is 0, the single form when viewMode is single or
currentPage >= totalPages, and the pair form otherwise. -/
def getPageDisplay (m : ViewMode) (totalPages current : Int) : String :=
  if totalPages = 0 then "0 / 0"
  else if m = .single ∨ totalPages ≤ current then
    toString current ++ " / " ++ toString totalPages
  else
    toString current ++ "-" ++ toString (current + 1) ++ " / " ++ toString totalPages

/-- The user-triggered operations of the reading session. -/
inductive ReaderOp
  | next
  | prev
  | toggleView
deriving DecidableEq, Repr

/-- The client-side state of a reading session: the currentPage and viewMode
useState cells.  The page list (hence totalPages) is fixed for the session. -/
structure ReaderState where
  currentPage : Int
  viewMode : ViewMode
deriving DecidableEq, Repr

/-- One transition of the reading session. -/
def readerStep (totalPages : Int) (s : ReaderState) (op : ReaderOp) : ReaderState :=
  match op with
  | .next => ⟨goToNextPage s.viewMode totalPages s.currentPage, s.viewMode⟩
  | .prev => ⟨goToPrevPage s.viewMode s.currentPage, s.viewMode⟩
  | .toggleView => ⟨s.currentPage, toggleViewMode s.viewMode⟩

/-- Run a sequence of session operations from a state. -/
def runReader (totalPages : Int) (s : ReaderState) (ops : List ReaderOp) : ReaderState :=
  ops.foldl (readerStep totalPages) s

/-! ### Chapter-key ordering
sortChapterKeys appears identically in GistReaderClient and in GistInfoPage.
Its comparator uses the JavaScript parseFloat (which parses the longest
numeric prefix of the string) and localeCompare. -/

/-- Value of a list of decimal digit characters. -/
def digitsToNat (ds : List Char) : Nat :=
  ds.foldl (fun n c => 10 * n + (c.toNat - 48)) 0

/-- An exact decimal value num * 10 ^ exp, the result of parseFloat on a
finite decimal literal.  Kept exact (scaled integer) rather than rounded to a
binary float; this preserves the ordering of all decimal literals, which is
all the chapter-key comparator observes. -/
structure JsNumber where
  num : Int
  exp : Int
deriving DecidableEq, Repr

/-- JavaScript whitespace characters skipped by parseFloat (ASCII subset). -/
def isJsWhitespace (c : Char) : Bool :=
  c = ' ' ∨ c = '\t' ∨ c = '\n' ∨ c = '\r' ∨ c = '\x0b' ∨ c = '\x0c'

/-- The longest decimal-literal prefix of a character list, following the
JavaScript parseFloat grammar restricted to finite values (optional sign,
digits with optional fraction, optional exponent; Infinity is not modelled).
Returns the parsed value (none when no prefix is a valid literal, parseFloat's
NaN) and the unconsumed suffix. -/
def parseFloatRun (cs : List Char) : Option JsNumber × List Char :=
  let signAndRest :=
    match cs with
    | '-' :: rest => ((-1 : Int), rest)
    | '+' :: rest => ((1 : Int), rest)
    | _ => ((1 : Int), cs)
  let sign := signAndRest.1
  let intPart := signAndRest.2.span Char.isDigit
  let intDigits := intPart.1
  let fracPart :=
    match intPart.2 with
    | '.' :: rest => rest.span Char.isDigit
    | _ => ([], intPart.2)
  let fracDigits := fracPart.1
  if intDigits.isEmpty && fracDigits.isEmpty then (none, cs)
  else
    let expPart :=
      match fracPart.2 with
      | c :: rest =>
        if c = 'e' ∨ c = 'E' then
          let esignAndRest :=
            match rest with
            | '-' :: r => ((-1 : Int), r)
            | '+' :: r => ((1 : Int), r)
            | _ => ((1 : Int), rest)
          let expDigits := esignAndRest.2.span Char.isDigit
          if expDigits.1.isEmpty then ((0 : Int), fracPart.2)
          else (esignAndRest.1 * (digitsToNat expDigits.1 : Int), expDigits.2)
        else ((0 : Int), fracPart.2)
      | [] => ((0 : Int), fracPart.2)
    let value : JsNumber :=
      ⟨sign * (digitsToNat (intDigits ++ fracDigits) : Int),
        expPart.1 - (fracDigits.length : Int)⟩
    (some value, expPart.2)

/-- JavaScript parseFloat on a string (restricted to finite decimal
literals): skip leading whitespace, then parse the longest numeric prefix;
none models NaN. -/
def parseFloat (s : String) : Option JsNumber :=
  (parseFloatRun (s.data.dropWhile isJsWhitespace)).1

/-- Modelled from the spec: "parse both keys as decimal numbers; if both parse
successfully, order numerically; otherwise fall back to lexicographic string
comparison", together with the spec's note that the key "10x" fails the
numeric parse.  Under this reading a key parses only when the entire key is a
decimal literal, so trailing non-numeric characters make the parse fail. -/
def specParseDecimal (s : String) : Option JsNumber :=
  match parseFloatRun (s.data.dropWhile isJsWhitespace) with
  | (some v, []) => some v
  | _ => none

/-- Lexicographic comparison of character lists by code point. -/
def charListCompare : List Char → List Char → Ordering
  | [], [] => .eq
  | [], _ :: _ => .lt
  | _ :: _, [] => .gt
  | a :: as, b :: bs =>
    if a.toNat < b.toNat then .lt
    else if b.toNat < a.toNat then .gt
    else charListCompare as bs

/-- The sign of a.localeCompare(b), modelled as lexicographic code-point
comparison; this agrees with the default collation on the ASCII alphanumeric
chapter keys at issue (digits order before letters in both). -/
def localeCompare (a b : String) : Ordering :=
  charListCompare a.data b.data

/-- The sign of the comparator expression numA - numB: the two exact decimal
values are brought to a common scale and their integer parts compared. -/
def jsNumCompare (x y : JsNumber) : Ordering :=
  let e := min x.exp y.exp
  let a := x.num * (10 : Int) ^ (x.exp - e).toNat
  let b := y.num * (10 : Int) ^ (y.exp - e).toNat
  if a < b then .lt else if b < a then .gt else .eq

/-- The comparator of sortChapterKeys: parseFloat both keys; if neither is
NaN compare numerically (numA - numB), otherwise fall back to
a.localeCompare(b). -/
def compareChapterKeys (a b : String) : Ordering :=
  match parseFloat a, parseFloat b with
  | some numA, some numB => jsNumCompare numA numB
  | _, _ => localeCompare a b

/-- Modelled from the spec: the comparator with the strict (entire-key)
decimal parse the spec describes. -/
def specCompareChapterKeys (a b : String) : Ordering :=
  match specParseDecimal a, specParseDecimal b with
  | some numA, some numB => jsNumCompare numA numB
  | _, _ => localeCompare a b

/-- Stable insertion into a sorted list: x is placed before the first
element it is less-or-equal to. -/
def insertSorted (le : α → α → Bool) (x : α) : List α → List α
  | [] => [x]
  | y :: ys => if le x y then x :: y :: ys else y :: insertSorted le x ys

/-- Stable sort (JavaScript Array.prototype.sort is stable). -/
def stableSort (le : α → α → Bool) : List α → List α
  | [] => []
  | x :: xs => insertSorted le x (stableSort le xs)

/-- sortChapterKeys: keys.sort with the numeric-with-fallback comparator. -/
def sortChapterKeys (keys : List String) : List String :=
  stableSort (fun a b => compareChapterKeys a b != Ordering.gt) keys

/-- Modelled from the spec: sortChapterKeys as the spec words it, with the
strict decimal parse under which "10x" fails to parse. -/
def sortChapterKeysSpec (keys : List String) : List String :=
  stableSort (fun a b => specCompareChapterKeys a b != Ordering.gt) keys

/-! ### Process-wide caches
The source keeps one Map per fetcher (albumCache, gistCache).  A Map is
modelled as an association list observed through get/set; set replaces any
existing entry for the key. -/

/-- Map.get (combined with Map.has: some on a hit, none on a miss). -/
def cacheGet {β : Type} (cache : List (String × β)) (key : String) : Option β :=
  match cache.find? (fun p => p.1 == key) with
  | some p => some p.2
  | none => none

/-- Map.set: cache the value under the key, replacing any previous entry. -/
def cacheSet {β : Type} (cache : List (String × β)) (key : String) (v : β) :
    List (String × β) :=
  (key, v) :: cache.filter (fun p => p.1 != key)

/-- Outcome of one call to a caching fetcher: the returned-or-thrown result,
the cache state after the call, and whether the call went past the cache to
the network (false exactly on a cache hit or when the required credential is
missing, both of which return or throw before any fetch). -/
structure FetchOutcome (ε : Type) (α : Type) where
  result : Except ε α
  cache : List (String × α)
  networkCalled : Bool

/-! ### Album fetcher (fetchImgurAlbumPages, src/lib/imgur.ts) -/

/-- One entry of the album response's data array. -/
structure ImgurImage where
  link : String
  type : Option String
deriving DecidableEq, Repr

/-- The decoded album response: success flag and the data field, which is
none when data.data is not an array (the Array.isArray check). -/
structure ImgurAlbumResponse where
  data : Option (List ImgurImage)
  success : Bool
deriving DecidableEq, Repr

/-- The distinct throw sites of fetchImgurAlbumPages, in source order. -/
inductive ImgurError
  | missingClientId
  | httpError (status : Int)
  | apiRejected (albumId : String)
  | badFormat (albumId : String)
  | emptyResult (albumId : String)
deriving DecidableEq, Repr

/-- What the network would answer for the album endpoint: a non-success HTTP
status, or a decoded JSON body. -/
inductive ImgurNet
  | httpError (status : Int)
  | ok (response : ImgurAlbumResponse)
deriving DecidableEq, Repr

/-- List-based model of String.startsWith (code-point prefix). -/
def strStartsWith (s p : String) : Bool :=
  p.data.isPrefixOf s.data

/-- The filter predicate img.type?.startsWith('image/'): an absent type field
is undefined, hence falsy. -/
def isImageTyped (img : ImgurImage) : Bool :=
  match img.type with
  | some t => strStartsWith t "image/"
  | none => false

/-- fetchImgurAlbumPages: cache-first on key imgur-albumId; then the client-id
guard (throws before any network call); then the HTTP, success-flag, and
array-shape checks; then filter to image-typed entries and map to links;
throw on an empty filtered result; cache and return only a non-empty list.
clientId models process.env.IMGUR_CLIENT_ID, net the album endpoint. -/
def fetchImgurAlbumPages (clientId : Option String) (net : ImgurNet)
    (cache : List (String × List String)) (albumId : String) :
    FetchOutcome ImgurError (List String) :=
  let cacheKey := "imgur-" ++ albumId
  match cacheGet cache cacheKey with
  | some pages => ⟨.ok pages, cache, false⟩
  | none =>
    match clientId with
    | none => ⟨.error .missingClientId, cache, false⟩
    | some _ =>
      match net with
      | .httpError status => ⟨.error (.httpError status), cache, true⟩
      | .ok resp =>
        if resp.success = false then ⟨.error (.apiRejected albumId), cache, true⟩
        else
          match resp.data with
          | none => ⟨.error (.badFormat albumId), cache, true⟩
          | some imgs =>
            let pages := (imgs.filter isImageTyped).map ImgurImage.link
            if pages.isEmpty then ⟨.error (.emptyResult albumId), cache, true⟩
            else ⟨.ok pages, cacheSet cache cacheKey pages, true⟩

/-! ### Source resolver (resolveSourcePages) -/

/-- The two throw sites of resolveSourcePages: the fallback for a source path
matching no registered pattern (which names the full path), and the rethrow
when the delegated album fetch fails (which names the extracted album id). -/
inductive ResolveError
  | unsupportedSource (descriptor : String)
  | albumFetchFailed (albumId : String)
deriving DecidableEq, Repr

/-- The literal part of the resolver's imgur pattern
(the regular expression matches /proxy/api/imgur/chapter/ followed by one or
more alphanumeric characters and an optional slash, anywhere in the path). -/
def imgurChapterPat : List Char := "/proxy/api/imgur/chapter/".data

/-- Try the imgur pattern at the head of the character list: the literal must
be a prefix and must be followed by at least one alphanumeric character; the
captured album id is the maximal alphanumeric run (the greedy group). -/
def matchImgurAt (cs : List Char) : Option String :=
  if imgurChapterPat.isPrefixOf cs then
    let ds := (cs.drop imgurChapterPat.length).takeWhile Char.isAlphanum
    if ds.isEmpty then none else some (String.mk ds)
  else none

/-- Unanchored regular-expression search: the first position at which the
imgur pattern matches wins. -/
def findImgurMatch : List Char → Option String
  | [] => none
  | c :: cs =>
    match matchImgurAt (c :: cs) with
    | some albumId => some albumId
    | none => findImgurMatch cs

/-- resolveSourcePages: match the path against the imgur pattern; on a match
delegate to the album fetcher with the captured id (wrapping any fetch error);
otherwise throw the unsupported-source error naming the full path.  The album
fetcher is passed as a function so the resolver's dispatch is stated for any
fetch outcome. -/
def resolveSourcePages (fetchAlbum : String → Except ImgurError (List String))
    (sourcePath : String) : Except ResolveError (List String) :=
  match findImgurMatch sourcePath.data with
  | some albumId =>
    match fetchAlbum albumId with
    | .ok pages => .ok pages
    | .error _ => .error (.albumFetchFailed albumId)
  | none => .error (.unsupportedSource sourcePath)

/-! ### Manifest validator (zod schemas, src/lib/gist.ts) -/

/-- Decoded JSON values (the input of schema validation). -/
inductive Json
  | null
  | bool (b : Bool)
  | num (n : JsNumber)
  | str (s : String)
  | arr (elements : List Json)
  | obj (fields : List (String × Json))

/-- A schema-violation error (a ZodError).  zod aggregates every issue of a
parse into one error; this model reports the first issue encountered, which
suffices for the properties stated here (they only distinguish success from
schema failure). -/
structure SchemaError where
  path : List String
  message : String
deriving DecidableEq, Repr

/-- First binding of a key in a decoded JSON object (decoded objects bind
each key once). -/
def lookupField (fields : List (String × Json)) (key : String) : Option Json :=
  match fields.find? (fun p => p.1 == key) with
  | some p => some p.2
  | none => none

/-- Split a character list at the first occurrence of the :// separator. -/
def splitSchemeAux : List Char → Option (List Char × List Char)
  | [] => none
  | c :: cs =>
    if [':', '/', '/'].isPrefixOf (c :: cs) then some ([], (c :: cs).drop 3)
    else
      match splitSchemeAux cs with
      | some p => some (c :: p.1, p.2)
      | none => none

/-- Models zod's z.string().url() check (a try of the WHATWG URL
constructor): a nonempty alphabetic scheme, the :// separator, a nonempty
remainder.  The claims settled here do not depend on the exact URL grammar,
only on the check being a pure predicate on the string. -/
def isValidUrl (s : String) : Bool :=
  match splitSchemeAux s.data with
  | some p => !p.1.isEmpty && p.1.all Char.isAlpha && !p.2.isEmpty
  | none => false

/-- z.string() on a required object field. -/
def validateRequiredString (fields : List (String × Json)) (key : String) :
    Except SchemaError String :=
  match lookupField fields key with
  | some (.str s) => .ok s
  | some _ => .error ⟨[key], "Expected string"⟩
  | none => .error ⟨[key], "Required"⟩

/-- z.string().optional() on an object field: an absent field is fine, a
present field must be a string (null is not accepted). -/
def validateOptionalString (fields : List (String × Json)) (key : String) :
    Except SchemaError (Option String) :=
  match lookupField fields key with
  | some (.str s) => .ok (some s)
  | some _ => .error ⟨[key], "Expected string"⟩
  | none => .ok none

/-- z.string().url() on one value. -/
def validateUrlString (j : Json) : Except SchemaError String :=
  match j with
  | .str s => if isValidUrl s then .ok s else .error ⟨[], "Invalid url"⟩
  | _ => .error ⟨[], "Expected string"⟩

/-- z.string().url().optional() on an object field. -/
def validateOptionalUrl (fields : List (String × Json)) (key : String) :
    Except SchemaError (Option String) :=
  match lookupField fields key with
  | some j =>
    match validateUrlString j with
    | .ok u => .ok (some u)
    | .error e => .error e
  | none => .ok none

/-- Elementwise z.string().url() over the elements of an array. -/
def validateUrlList : List Json → Except SchemaError (List String)
  | [] => .ok []
  | j :: js =>
    match validateUrlString j with
    | .error e => .error e
    | .ok u =>
      match validateUrlList js with
      | .error e => .error e
      | .ok us => .ok (u :: us)

/-- z.array(z.string().url()): the value must be a JSON array of url
strings. -/
def validateUrlArray (j : Json) : Except SchemaError (List String) :=
  match j with
  | .arr elements => validateUrlList elements
  | _ => .error ⟨[], "Expected array"⟩

/-- Validate every binding of a groups record. -/
def validateGroupEntries : List (String × Json) →
    Except SchemaError (List (String × List String))
  | [] => .ok []
  | p :: rest =>
    match validateUrlArray p.2 with
    | .error e => .error e
    | .ok urls =>
      match validateGroupEntries rest with
      | .error e => .error e
      | .ok tail => .ok ((p.1, urls) :: tail)

/-- z.record(z.array(z.string().url())): the groups value must be an object,
every binding an array of url strings. -/
def validateGroupsJson (j : Json) : Except SchemaError (List (String × List String)) :=
  match j with
  | .obj fields => validateGroupEntries fields
  | _ => .error ⟨["groups"], "Expected object"⟩

/-- A validated chapter (chapterSchema): title, optional volume, groups, and
the passthrough bag of unknown fields. -/
structure Chapter where
  title : String
  volume : Option String
  groups : List (String × List String)
  extra : List (String × Json)

/-- The chapter field names consumed by chapterSchema. -/
def chapterKeys : List String := ["title", "volume", "groups"]

/-- chapterSchema.parse on one decoded JSON value. -/
def chapterSchemaParse (j : Json) : Except SchemaError Chapter :=
  match j with
  | .obj fields =>
    match validateRequiredString fields "title" with
    | .error e => .error e
    | .ok title =>
      match validateOptionalString fields "volume" with
      | .error e => .error e
      | .ok volume =>
        match lookupField fields "groups" with
        | none => .error ⟨["groups"], "Required"⟩
        | some g =>
          match validateGroupsJson g with
          | .error e => .error e
          | .ok groups =>
            .ok ⟨title, volume, groups, fields.filter (fun p => !chapterKeys.contains p.1)⟩
  | _ => .error ⟨[], "Expected object"⟩

/-- Validate every binding of the chapters record. -/
def validateChapterEntries : List (String × Json) →
    Except SchemaError (List (String × Chapter))
  | [] => .ok []
  | p :: rest =>
    match chapterSchemaParse p.2 with
    | .error e => .error e
    | .ok c =>
      match validateChapterEntries rest with
      | .error e => .error e
      | .ok tail => .ok ((p.1, c) :: tail)

/-- z.record(chapterSchema): the chapters value must be an object, every
binding a valid chapter. -/
def validateChaptersJson (j : Json) : Except SchemaError (List (String × Chapter)) :=
  match j with
  | .obj fields => validateChapterEntries fields
  | _ => .error ⟨["chapters"], "Expected object"⟩

/-- A validated manifest (gistConfigSchema): required non-empty title,
optional description/artist/author, optional cover url, chapters record, and
the passthrough bag of unknown top-level fields. -/
structure GistConfig where
  title : String
  description : Option String
  artist : Option String
  author : Option String
  cover : Option String
  chapters : List (String × Chapter)
  extra : List (String × Json)

/-- The top-level field names consumed by gistConfigSchema. -/
def topLevelKeys : List String :=
  ["title", "description", "artist", "author", "cover", "chapters"]

/-- gistConfigSchema.parse: the Manifest Validator.  A pure function of the
decoded JSON value; every failure is a SchemaError. -/
def gistConfigSchemaParse (j : Json) : Except SchemaError GistConfig :=
  match j with
  | .obj fields =>
    match validateRequiredString fields "title" with
    | .error e => .error e
    | .ok title =>
      if title.data.isEmpty then .error ⟨["title"], "Title is required"⟩
      else
        match validateOptionalString fields "description" with
        | .error e => .error e
        | .ok description =>
          match validateOptionalString fields "artist" with
          | .error e => .error e
          | .ok artist =>
            match validateOptionalString fields "author" with
            | .error e => .error e
            | .ok author =>
              match validateOptionalUrl fields "cover" with
              | .error e => .error e
              | .ok cover =>
                match lookupField fields "chapters" with
                | none => .error ⟨["chapters"], "Required"⟩
                | some c =>
                  match validateChaptersJson c with
                  | .error e => .error e
                  | .ok chapters =>
                    .ok ⟨title, description, artist, author, cover, chapters,
                      fields.filter (fun p => !topLevelKeys.contains p.1)⟩
  | _ => .error ⟨[], "Expected object"⟩

/-! ### Manifest fetcher (fetchGistConfig, src/lib/gist.ts) -/

/-- The distinct failure modes of fetchGistConfig, in source order (the
source rethrows each as an Error carrying a message; the constructors carry
the data those messages name). -/
inductive GistError
  | notFound (gistId : String)
  | fetchFailed (gistId : String) (status : Int)
  | noFiles (gistId : String)
  | noJsonFile (gistId : String)
  | rawFetchFailed
  | noContent (gistId : String)
  | jsonParseError
  | schemaViolation (e : SchemaError)
deriving DecidableEq, Repr

/-- What the network would answer for the gists endpoint: a non-success HTTP
status, or a decoded JSON body. -/
inductive GistNet
  | httpError (status : Int)
  | ok (body : Json)

/-- JavaScript truthiness of a decoded JSON value (NaN does not arise). -/
def jsTruthy (j : Json) : Bool :=
  match j with
  | .null => false
  | .bool b => b
  | .num n => !(n.num = 0)
  | .str s => !s.data.isEmpty
  | .arr _ => true
  | .obj _ => true

/-- Property access on a decoded JSON value: undefined (none) on non-objects
and absent keys. -/
def jsGetField (j : Json) (key : String) : Option Json :=
  match j with
  | .obj fields => lookupField fields key
  | _ => none

/-- Truthiness of a property access, undefined being falsy. -/
def jsTruthyField (j : Json) (key : String) : Bool :=
  match jsGetField j key with
  | some v => jsTruthy v
  | none => false

/-- Object.values on a decoded JSON value (the model gives non-objects no
values; the source only reaches this with the gist API's files object). -/
def objValues (j : Json) : List Json :=
  match j with
  | .obj fields => fields.map Prod.snd
  | _ => []

/-- Whether a list ends with the given suffix. -/
def listEndsWith (l suf : List Char) : Bool :=
  suf.reverse.isPrefixOf l.reverse

/-- The file-selection predicate file.filename?.toLowerCase().endsWith('.json')
(the model treats a non-string filename as not matching; the gist API always
supplies strings). -/
def isJsonFileEntry (file : Json) : Bool :=
  match jsGetField file "filename" with
  | some (.str s) => listEndsWith (s.data.map Char.toLower) ".json".data
  | _ => false

/-- Retrieve the selected file's text and parse it, preferring raw_url over
inline content.  The string-level fetch and JSON.parse are not embedded:
rawNet supplies the outcome of fetching the raw_url (outer error: the content
response was not ok) and then parsing its text (inner error: JSON.parse
threw); inlineParse supplies the outcome of JSON.parse on the inline content
when that branch is taken. -/
def gistFileContent (gistId : String) (file : Json)
    (rawNet : Except Unit (Except Unit Json)) (inlineParse : Except Unit Json) :
    Except GistError Json :=
  if jsTruthyField file "raw_url" then
    match rawNet with
    | .error _ => .error .rawFetchFailed
    | .ok (.error _) => .error .jsonParseError
    | .ok (.ok parsed) => .ok parsed
  else if jsTruthyField file "content" then
    match inlineParse with
    | .error _ => .error .jsonParseError
    | .ok parsed => .ok parsed
  else .error (.noContent gistId)

/-- fetchGistConfig: cache-first on key gist-gistId; on a miss fetch the gist
(404 gets its dedicated not-found error), require a truthy files object,
select the first file whose lowercased name ends in .json, retrieve and parse
its content, validate with gistConfigSchema, and only then cache and
return.  Every error path leaves the cache untouched. -/
def fetchGistConfig (net : GistNet) (rawNet : Except Unit (Except Unit Json))
    (inlineParse : Except Unit Json) (cache : List (String × GistConfig))
    (gistId : String) : FetchOutcome GistError GistConfig :=
  let cacheKey := "gist-" ++ gistId
  match cacheGet cache cacheKey with
  | some cfg => ⟨.ok cfg, cache, false⟩
  | none =>
    match net with
    | .httpError status =>
      if status = 404 then ⟨.error (.notFound gistId), cache, true⟩
      else ⟨.error (.fetchFailed gistId status), cache, true⟩
    | .ok body =>
      match jsGetField body "files" with
      | none => ⟨.error (.noFiles gistId), cache, true⟩
      | some files =>
        if jsTruthy files = false then ⟨.error (.noFiles gistId), cache, true⟩
        else
          match (objValues files).find? isJsonFileEntry with
          | none => ⟨.error (.noJsonFile gistId), cache, true⟩
          | some file =>
            match gistFileContent gistId file rawNet inlineParse with
            | .error e => ⟨.error e, cache, true⟩
            | .ok parsed =>
              match gistConfigSchemaParse parsed with
              | .error e => ⟨.error (.schemaViolation e), cache, true⟩
              | .ok cfg => ⟨.ok cfg, cacheSet cache cacheKey cfg, true⟩

/-! ## Theorems -/

/-! ### Navigation and session-state helper lemmas -/

theorem goToNextPage_bounds (m : ViewMode) (t c : Int) (h1 : 1 ≤ c) (h2 : c ≤ t) :
    1 ≤ goToNextPage m t c ∧ goToNextPage m t c ≤ t := by
  cases m <;> simp only [goToNextPage, getPageIncrement, min_def] <;> split <;> omega

theorem goToPrevPage_bounds (m : ViewMode) (t c : Int) (h1 : 1 ≤ c) (h2 : c ≤ t)
    (ht : 1 ≤ t) : 1 ≤ goToPrevPage m c ∧ goToPrevPage m c ≤ t := by
  cases m <;> simp only [goToPrevPage, getPageIncrement, max_def] <;> split <;> omega

theorem mountEffect_page_bounds (sp : Option (Except Unit SavedProgress)) (t : Int)
    (ht : 1 ≤ t) : 1 ≤ (mountEffect sp t).page ∧ (mountEffect sp t).page ≤ t := by
  rcases sp with _ | sp
  · exact ⟨le_refl 1, ht⟩
  · rcases sp with e | p
    · exact ⟨le_refl 1, ht⟩
    · have hne : ¬t = 0 := by omega
      simp only [mountEffect, hne, if_false, max_def, min_def]
      split <;> (try split) <;> omega

theorem readerStep_bounds (t : Int) (s : ReaderState) (op : ReaderOp) (ht : 1 ≤ t)
    (h1 : 1 ≤ s.currentPage) (h2 : s.currentPage ≤ t) :
    1 ≤ (readerStep t s op).currentPage ∧ (readerStep t s op).currentPage ≤ t := by
  cases op
  · exact goToNextPage_bounds s.viewMode t s.currentPage h1 h2
  · exact goToPrevPage_bounds s.viewMode t s.currentPage h1 h2 ht
  · exact ⟨h1, h2⟩

theorem runReader_bounds (t : Int) (ht : 1 ≤ t) (ops : List ReaderOp) (s : ReaderState)
    (h1 : 1 ≤ s.currentPage) (h2 : s.currentPage ≤ t) :
    1 ≤ (runReader t s ops).currentPage ∧ (runReader t s ops).currentPage ≤ t := by
  induction ops generalizing s with
  | nil => exact ⟨h1, h2⟩
  | cons op rest ih =>
    have h := readerStep_bounds t s op ht h1 h2
    exact ih (readerStep t s op) h.1 h.2

/-! ### C1: navigation clamping -/

/-- C1 counterexample: with totalPages 10 in double view mode, a "next" from
page 9 lands on page 10, not on page 9 — the claim that repeated "next" from
page 9 stops at page 9 fails at its own example. -/
theorem nav_clamping_counterexample :
    goToNextPage ViewMode.double 10 9 = 10 ∧ goToNextPage ViewMode.double 10 9 ≠ 9 := by
  decide

/-- C1 (amended): Advance/Retreat move the current page by the view-mode step
(1 for single, 2 for double) clamped to [1, totalPages]; an advance from the
last page and a retreat from page 1 are no-ops; with totalPages 10 in double
mode, repeated "next" from page 9 stops at page 10 — the last page, not
page 9 — so page 11 is never reached, and repeated "prev" from page 1 stays
at page 1. -/
theorem nav_clamping :
    (getPageIncrement ViewMode.single = 1 ∧ getPageIncrement ViewMode.double = 2) ∧
    (∀ m t c, 1 ≤ c → c ≤ t →
      goToNextPage m t c = min (c + getPageIncrement m) t ∧
      1 ≤ goToNextPage m t c ∧ goToNextPage m t c ≤ t ∧
      goToPrevPage m c = max 1 (c - getPageIncrement m) ∧
      1 ≤ goToPrevPage m c ∧ goToPrevPage m c ≤ t) ∧
    (∀ m t, 1 ≤ t → goToNextPage m t t = t) ∧
    (∀ m, goToPrevPage m 1 = 1) ∧
    (∀ k, Nat.iterate (goToNextPage ViewMode.double 10) (k + 1) 9 = 10) ∧
    (∀ k, Nat.iterate (goToPrevPage ViewMode.double) k 1 = 1) := by
  refine ⟨⟨rfl, rfl⟩, ?_, ?_, ?_, ?_, ?_⟩
  · intro m t c h1 h2
    have hn := goToNextPage_bounds m t c h1 h2
    have hp := goToPrevPage_bounds m t c h1 h2 (by omega)
    exact ⟨rfl, hn.1, hn.2, rfl, hp.1, hp.2⟩
  · intro m t ht
    cases m <;> simp only [goToNextPage, getPageIncrement, min_def] <;> split <;> omega
  · intro m; cases m <;> decide
  · intro k
    induction k with
    | zero => decide
    | succ k ih =>
      rw [Function.iterate_succ_apply']
      rw [ih]
      decide
  · intro k
    induction k with
    | zero => rfl
    | succ k ih =>
      rw [Function.iterate_succ_apply']
      rw [ih]
      decide

/-- C1 witness for the amended theorem at the claim's own numbers. -/
theorem nav_clamping_witness :
    (goToNextPage ViewMode.double 10 9 = min (9 + getPageIncrement ViewMode.double) 10 ∧
      1 ≤ goToNextPage ViewMode.double 10 9 ∧ goToNextPage ViewMode.double 10 9 ≤ 10 ∧
      goToPrevPage ViewMode.double 9 = max 1 (9 - getPageIncrement ViewMode.double) ∧
      1 ≤ goToPrevPage ViewMode.double 9 ∧ goToPrevPage ViewMode.double 9 ≤ 10) ∧
    goToNextPage ViewMode.double 10 10 = 10 :=
  ⟨nav_clamping.2.1 ViewMode.double 10 9 (by decide) (by decide),
    nav_clamping.2.2.1 ViewMode.double 10 (by decide)⟩

/-! ### C4: progress resume -/

/-- C4: on mount, a stored record with page 5 seeds page 5 when the resolved
chapter has 10 pages, is clamped to page 3 when it has only 3 pages, and a
missing record seeds page 1. -/
theorem progress_resume :
    mountEffect (some (Except.ok ⟨some 5⟩)) 10 = ⟨5, false⟩ ∧
    mountEffect (some (Except.ok ⟨some 5⟩)) 3 = ⟨3, false⟩ ∧
    (∀ pagesLength, mountEffect none pagesLength = ⟨1, false⟩) :=
  ⟨by decide, by decide, fun _ => rfl⟩

/-! ### C5: page-counter label -/

/-- C5: the page-counter label is current / total in single mode and
current-(current+1) / total in double mode, except that on the last page the
double-mode label degrades to the single form; at totalPages 7, page 6 gives
"6-7 / 7" and page 7 gives "7 / 7". -/
theorem page_display_label (t c : Int) (h1 : 1 ≤ c) (h2 : c ≤ t) :
    (getPageDisplay ViewMode.single t c = toString c ++ " / " ++ toString t) ∧
    (c < t → getPageDisplay ViewMode.double t c =
      toString c ++ "-" ++ toString (c + 1) ++ " / " ++ toString t) ∧
    (c = t → getPageDisplay ViewMode.double t c = toString c ++ " / " ++ toString t) ∧
    getPageDisplay ViewMode.double 7 6 = "6-7 / 7" ∧
    getPageDisplay ViewMode.double 7 7 = "7 / 7" := by
  have hne : ¬t = 0 := by omega
  refine ⟨?_, ?_, ?_, by decide, by decide⟩
  · simp only [getPageDisplay, hne, if_false, true_or, if_true]
  · intro hlt
    simp only [getPageDisplay, hne, if_false]
    rw [if_neg]
    rintro (h | h)
    · exact ViewMode.noConfusion h
    · omega
  · intro heq
    simp only [getPageDisplay, hne, if_false]
    rw [if_pos (Or.inr (show t ≤ c by omega))]

/-- C5 witness at the claim's own numbers. -/
theorem page_display_label_witness :
    getPageDisplay ViewMode.single 7 6 = toString (6 : Int) ++ " / " ++ toString (7 : Int) ∧
    getPageDisplay ViewMode.double 7 6 = "6-7 / 7" ∧
    getPageDisplay ViewMode.double 7 7 = "7 / 7" :=
  ⟨(page_display_label 7 6 (by decide) (by decide)).1,
    (page_display_label 7 6 (by decide) (by decide)).2.2.2.1,
    (page_display_label 7 7 (by decide) (by decide)).2.2.2.2⟩

/-! ### C9: current-page invariant -/

/-- C9: over a non-empty page list, the current page stays within
[1, totalPages] after mount and after every sequence of navigation and
view-mode operations, whatever the stored progress record was. -/
theorem current_page_invariant (t : Int) (ht : 1 ≤ t)
    (sp : Option (Except Unit SavedProgress)) (m : ViewMode) (ops : List ReaderOp) :
    (1 ≤ (mountEffect sp t).page ∧ (mountEffect sp t).page ≤ t) ∧
    (1 ≤ (runReader t ⟨(mountEffect sp t).page, m⟩ ops).currentPage ∧
      (runReader t ⟨(mountEffect sp t).page, m⟩ ops).currentPage ≤ t) := by
  have hm := mountEffect_page_bounds sp t ht
  exact ⟨hm, runReader_bounds t ht ops ⟨(mountEffect sp t).page, m⟩ hm.1 hm.2⟩

/-- C9 witness: a session over 10 pages, mounted from an out-of-range stored
record, driven through navigation and view-mode toggles. -/
theorem current_page_invariant_witness :
    (1 ≤ (mountEffect (some (Except.ok ⟨some 99⟩)) 10).page ∧
      (mountEffect (some (Except.ok ⟨some 99⟩)) 10).page ≤ 10) ∧
    (1 ≤ (runReader 10 ⟨(mountEffect (some (Except.ok ⟨some 99⟩)) 10).page, ViewMode.single⟩
        [ReaderOp.toggleView, ReaderOp.next, ReaderOp.next, ReaderOp.prev]).currentPage ∧
      (runReader 10 ⟨(mountEffect (some (Except.ok ⟨some 99⟩)) 10).page, ViewMode.single⟩
        [ReaderOp.toggleView, ReaderOp.next, ReaderOp.next, ReaderOp.prev]).currentPage ≤ 10) :=
  current_page_invariant 10 (by decide) (some (Except.ok ⟨some 99⟩)) ViewMode.single
    [ReaderOp.toggleView, ReaderOp.next, ReaderOp.next, ReaderOp.prev]

/-! ### C10: corrupt stored progress at mount -/

/-- C10: when the stored progress record exists but JSON.parse throws on it,
the mount effect removes the record and seeds page 1; the effect is a total
function of the stored state and page count, so a corrupt record never makes
the mount throw. -/
theorem corrupt_progress_mount :
    ∀ pagesLength, mountEffect (some (Except.error ())) pagesLength = ⟨1, true⟩ :=
  fun _ => rfl

/-! ### C2: chapter-key ordering -/

/-- C2 counterexample: parseFloat parses the longest numeric prefix, so the
key "10x" does parse (to 10): against the key "2" it is ordered numerically
(after "2"), whereas the claimed fallback to string comparison would place
"10x" before "2" — the spec-worded comparator and the code's comparator sort
the pair differently. -/
theorem chapter_key_ordering_counterexample :
    parseFloat "10x" = some ⟨10, 0⟩ ∧
    compareChapterKeys "10x" "2" = Ordering.gt ∧
    localeCompare "10x" "2" = Ordering.lt ∧
    sortChapterKeys ["10x", "2"] = ["2", "10x"] ∧
    sortChapterKeysSpec ["10x", "2"] = ["10x", "2"] := by decide

/-- C2 (amended): the comparator orders two keys numerically when parseFloat
succeeds on both and otherwise falls back to string comparison, but parseFloat
parses the longest numeric prefix, so "10x" parses (to 10) rather than
failing; both of the claim's example sorts still hold — in the second, the
fallback fires because "a" and "b" fail the parse, not "10x". -/
theorem chapter_key_ordering :
    sortChapterKeys ["10", "2", "9"] = ["2", "9", "10"] ∧
    sortChapterKeys ["b", "a", "10x"] = ["10x", "a", "b"] ∧
    (∀ a b numA numB, parseFloat a = some numA → parseFloat b = some numB →
      compareChapterKeys a b = jsNumCompare numA numB) ∧
    (∀ a b, parseFloat a = none ∨ parseFloat b = none →
      compareChapterKeys a b = localeCompare a b) ∧
    parseFloat "10x" = some ⟨10, 0⟩ ∧ parseFloat "a" = none := by
  refine ⟨by decide, by decide, ?_, ?_, by decide, by decide⟩
  · intro a b numA numB ha hb
    simp [compareChapterKeys, ha, hb]
  · intro a b h
    rcases h with h | h
    · cases hb : parseFloat b <;> simp [compareChapterKeys, h, hb]
    · cases ha : parseFloat a <;> simp [compareChapterKeys, ha, h]

/-- C2 witness for the amended theorem at concrete keys. -/
theorem chapter_key_ordering_witness :
    compareChapterKeys "10" "2" = jsNumCompare ⟨10, 0⟩ ⟨2, 0⟩ ∧
    compareChapterKeys "a" "b" = localeCompare "a" "b" :=
  ⟨chapter_key_ordering.2.2.1 "10" "2" ⟨10, 0⟩ ⟨2, 0⟩ (by decide) (by decide),
    chapter_key_ordering.2.2.2.1 "a" "b" (Or.inl (by decide))⟩

/-! ### C3: source resolution -/

/-- C3 counterexample: the resolver's registered pattern is
/proxy/api/imgur/chapter/id, so the descriptor /album/chapter/abc123/ from the
claim matches no pattern and fails with the unsupported-source error instead
of resolving via the album fetcher. -/
theorem source_resolution_counterexample :
    resolveSourcePages (fun albumId => Except.ok [albumId]) "/album/chapter/abc123/" =
      Except.error (ResolveError.unsupportedSource "/album/chapter/abc123/") := by
  rfl

/-- C3 (amended): a descriptor containing /proxy/api/imgur/chapter/abc123/
resolves via the album fetcher with the extracted id abc123, and every
descriptor matching no registered pattern fails with the unsupported-source
error naming the full descriptor string. -/
theorem source_resolution :
    (∀ fetchAlbum pages, fetchAlbum "abc123" = Except.ok pages →
      resolveSourcePages fetchAlbum "/proxy/api/imgur/chapter/abc123/" = Except.ok pages) ∧
    (∀ fetchAlbum s, findImgurMatch s.data = none →
      resolveSourcePages fetchAlbum s = Except.error (ResolveError.unsupportedSource s)) := by
  constructor
  · intro f pages h
    have hm : findImgurMatch ("/proxy/api/imgur/chapter/abc123/" : String).data =
        some "abc123" := by decide
    simp only [resolveSourcePages, hm, h]
  · intro f s h
    simp only [resolveSourcePages, h]

/-- C3 witness for the amended theorem at concrete descriptors. -/
theorem source_resolution_witness :
    resolveSourcePages (fun albumId => Except.ok [albumId])
      "/proxy/api/imgur/chapter/abc123/" = Except.ok ["abc123"] ∧
    resolveSourcePages (fun albumId => Except.ok [albumId]) "/gist/raw/xyz" =
      Except.error (ResolveError.unsupportedSource "/gist/raw/xyz") :=
  ⟨source_resolution.1 (fun albumId => Except.ok [albumId]) ["abc123"] rfl,
    source_resolution.2 (fun albumId => Except.ok [albumId]) "/gist/raw/xyz" (by decide)⟩

/-! ### Cache and fetcher helper lemmas -/

theorem cacheGet_cacheSet_self {β : Type} (cache : List (String × β)) (key : String)
    (v : β) : cacheGet (cacheSet cache key v) key = some v := by
  simp [cacheGet, cacheSet, List.find?]

theorem cacheGet_cacheSet_ne {β : Type} (cache : List (String × β)) (key k : String)
    (v : β) (h : k ≠ key) : cacheGet (cacheSet cache key v) k = cacheGet cache k := by
  have hk : (key == k) = false := by
    simp only [beq_eq_false_iff_ne, ne_eq]
    exact fun he => h he.symm
  simp only [cacheGet, cacheSet, List.find?, hk]
  induction cache with
  | nil => rfl
  | cons p rest ih =>
    by_cases hp : p.1 = key
    · have h1 : (p.1 != key) = false := by simp [hp]
      have h2 : (p.1 == k) = false := by
        simp only [beq_eq_false_iff_ne, ne_eq]
        intro he; exact h (he ▸ hp)
      simp only [List.filter_cons, h1, List.find?, h2, if_false, cond_false]
      exact ih
    · have h1 : (p.1 != key) = true := by simp [hp]
      simp only [List.filter_cons, h1, if_true, List.find?]
      cases hpk : p.1 == k with
      | true => rfl
      | false => exact ih

theorem fetchImgur_hit (clientId : Option String) (net : ImgurNet)
    (cache : List (String × List String)) (albumId : String) (pages : List String)
    (h : cacheGet cache ("imgur-" ++ albumId) = some pages) :
    fetchImgurAlbumPages clientId net cache albumId = ⟨.ok pages, cache, false⟩ := by
  simp only [fetchImgurAlbumPages, h]

/-- On a cache miss the album fetch either throws leaving the cache
untouched (with the network reached exactly when the client id was present),
or returns a non-empty page list which it stores under the album's key. -/
theorem fetchImgur_miss_cases (clientId : Option String) (net : ImgurNet)
    (cache : List (String × List String)) (albumId : String)
    (hc : cacheGet cache ("imgur-" ++ albumId) = none) :
    (∃ e, fetchImgurAlbumPages clientId net cache albumId =
        ⟨.error e, cache, clientId.isSome⟩) ∨
    (∃ pages, pages ≠ [] ∧ fetchImgurAlbumPages clientId net cache albumId =
        ⟨.ok pages, cacheSet cache ("imgur-" ++ albumId) pages, true⟩) := by
  simp only [fetchImgurAlbumPages, hc]
  split
  · exact Or.inl ⟨.missingClientId, rfl⟩
  · split
    · exact Or.inl ⟨.httpError _, rfl⟩
    · split
      · exact Or.inl ⟨.apiRejected albumId, rfl⟩
      · split
        · exact Or.inl ⟨.badFormat albumId, rfl⟩
        · next imgs heq =>
          split
          · exact Or.inl ⟨.emptyResult albumId, rfl⟩
          · next hne =>
            refine Or.inr ⟨(imgs.filter isImageTyped).map ImgurImage.link, ?_, rfl⟩
            intro hnil
            exact hne (by rw [hnil]; rfl)

theorem fetchImgur_error_state (clientId : Option String) (net : ImgurNet)
    (cache : List (String × List String)) (albumId : String) (e : ImgurError)
    (h : (fetchImgurAlbumPages clientId net cache albumId).result = .error e) :
    (fetchImgurAlbumPages clientId net cache albumId).cache = cache ∧
    cacheGet cache ("imgur-" ++ albumId) = none := by
  cases hc : cacheGet cache ("imgur-" ++ albumId) with
  | some v =>
    rw [fetchImgur_hit clientId net cache albumId v hc] at h
    exact Except.noConfusion h
  | none =>
    rcases fetchImgur_miss_cases clientId net cache albumId hc with ⟨a, ha⟩ | ⟨p, hp, hp2⟩
    · rw [ha]; exact ⟨rfl, rfl⟩
    · rw [hp2] at h
      exact Except.noConfusion h

theorem fetchImgur_ok_state (clientId : Option String) (net : ImgurNet)
    (cache : List (String × List String)) (albumId : String) (pages : List String)
    (hc : cacheGet cache ("imgur-" ++ albumId) = none)
    (h : (fetchImgurAlbumPages clientId net cache albumId).result = .ok pages) :
    pages ≠ [] ∧ fetchImgurAlbumPages clientId net cache albumId =
      ⟨.ok pages, cacheSet cache ("imgur-" ++ albumId) pages, true⟩ := by
  rcases fetchImgur_miss_cases clientId net cache albumId hc with ⟨a, ha⟩ | ⟨p, hp, hp2⟩
  · rw [ha] at h; exact Except.noConfusion h
  · rw [hp2] at h
    have hpe : p = pages := by
      have := Except.ok.inj h
      exact this
    subst hpe
    exact ⟨hp, hp2⟩

theorem fetchGist_hit (net : GistNet) (rawNet : Except Unit (Except Unit Json))
    (inlineParse : Except Unit Json) (cache : List (String × GistConfig))
    (gistId : String) (cfg : GistConfig)
    (h : cacheGet cache ("gist-" ++ gistId) = some cfg) :
    fetchGistConfig net rawNet inlineParse cache gistId = ⟨.ok cfg, cache, false⟩ := by
  simp only [fetchGistConfig, h]

/-- On a cache miss the manifest fetch either throws leaving the cache
untouched, or returns a validated config which it stores under the gist's
key; either way it reaches past the cache. -/
theorem fetchGist_miss_cases (net : GistNet) (rawNet : Except Unit (Except Unit Json))
    (inlineParse : Except Unit Json) (cache : List (String × GistConfig))
    (gistId : String) (hc : cacheGet cache ("gist-" ++ gistId) = none) :
    (∃ e, fetchGistConfig net rawNet inlineParse cache gistId = ⟨.error e, cache, true⟩) ∨
    (∃ cfg, fetchGistConfig net rawNet inlineParse cache gistId =
        ⟨.ok cfg, cacheSet cache ("gist-" ++ gistId) cfg, true⟩) := by
  simp only [fetchGistConfig, hc]
  split
  · split
    · exact Or.inl ⟨_, rfl⟩
    · exact Or.inl ⟨_, rfl⟩
  · split
    · exact Or.inl ⟨_, rfl⟩
    · split
      · exact Or.inl ⟨_, rfl⟩
      · split
        · exact Or.inl ⟨_, rfl⟩
        · split
          · exact Or.inl ⟨_, rfl⟩
          · split
            · exact Or.inl ⟨_, rfl⟩
            · exact Or.inr ⟨_, rfl⟩

theorem fetchGist_ok_state (net : GistNet) (rawNet : Except Unit (Except Unit Json))
    (inlineParse : Except Unit Json) (cache : List (String × GistConfig))
    (gistId : String) (cfg : GistConfig)
    (hc : cacheGet cache ("gist-" ++ gistId) = none)
    (h : (fetchGistConfig net rawNet inlineParse cache gistId).result = .ok cfg) :
    fetchGistConfig net rawNet inlineParse cache gistId =
      ⟨.ok cfg, cacheSet cache ("gist-" ++ gistId) cfg, true⟩ := by
  rcases fetchGist_miss_cases net rawNet inlineParse cache gistId hc with ⟨e, he⟩ | ⟨c, hc2⟩
  · rw [he] at h; exact Except.noConfusion h
  · rw [hc2] at h
    have : c = cfg := Except.ok.inj h
    subst this
    exact hc2

/-! ### C6: album fetch failure behaviour -/

/-- C6: the album fetch fails with the empty-result error whenever the
image-filtered list is empty; no error outcome is ever cached (the cache
after a throw is the cache before the call); a retry immediately after an
empty-result failure reaches the network again; and only a non-empty page
list is returned and cached. -/
theorem album_fetch_failure :
    (∀ cid resp cache albumId imgs,
      cacheGet cache ("imgur-" ++ albumId) = none →
      resp.success = true →
      resp.data = some imgs →
      (imgs.filter isImageTyped).map ImgurImage.link = [] →
      fetchImgurAlbumPages (some cid) (.ok resp) cache albumId =
        ⟨.error (.emptyResult albumId), cache, true⟩) ∧
    (∀ clientId net cache albumId e,
      (fetchImgurAlbumPages clientId net cache albumId).result = .error e →
      (fetchImgurAlbumPages clientId net cache albumId).cache = cache) ∧
    (∀ cid cid2 net net2 cache albumId,
      (fetchImgurAlbumPages (some cid) net cache albumId).result =
        .error (.emptyResult albumId) →
      (fetchImgurAlbumPages (some cid2) net2
        (fetchImgurAlbumPages (some cid) net cache albumId).cache
        albumId).networkCalled = true) ∧
    (∀ clientId net cache albumId pages,
      cacheGet cache ("imgur-" ++ albumId) = none →
      (fetchImgurAlbumPages clientId net cache albumId).result = .ok pages →
      pages ≠ [] ∧
      cacheGet (fetchImgurAlbumPages clientId net cache albumId).cache
        ("imgur-" ++ albumId) = some pages) := by
  refine ⟨?_, ?_, ?_, ?_⟩
  · intro cid resp cache albumId imgs hc hs hd he
    simp only [fetchImgurAlbumPages, hc, hd, hs, he]
    rfl
  · intro clientId net cache albumId e h
    exact (fetchImgur_error_state clientId net cache albumId e h).1
  · intro cid cid2 net net2 cache albumId h
    obtain ⟨hcache, hmiss⟩ :=
      fetchImgur_error_state (some cid) net cache albumId (.emptyResult albumId) h
    rw [hcache]
    rcases fetchImgur_miss_cases (some cid2) net2 cache albumId hmiss with
      ⟨e, he⟩ | ⟨p, hp, hp2⟩
    · rw [he]; rfl
    · rw [hp2]
  · intro clientId net cache albumId pages hc h
    obtain ⟨hne, heq⟩ := fetchImgur_ok_state clientId net cache albumId pages hc h
    refine ⟨hne, ?_⟩
    rw [heq]
    exact cacheGet_cacheSet_self cache ("imgur-" ++ albumId) pages

/-- C6 witness: an album of one non-image entry throws the empty-result
error without touching the cache, and an immediate retry reaches the network;
an album of one image entry returns and caches its non-empty link list. -/
theorem album_fetch_failure_witness :
    fetchImgurAlbumPages (some "cid") (.ok ⟨some [⟨"L", some "video/mp4"⟩], true⟩) []
      "a" = ⟨.error (.emptyResult "a"), [], true⟩ ∧
    (fetchImgurAlbumPages none (.httpError 500) [] "a").cache = [] ∧
    (fetchImgurAlbumPages (some "cid2") (.httpError 500)
      (fetchImgurAlbumPages (some "cid") (.ok ⟨some [], true⟩) [] "a").cache
      "a").networkCalled = true ∧
    (["L"] ≠ ([] : List String) ∧
      cacheGet (fetchImgurAlbumPages (some "cid")
        (.ok ⟨some [⟨"L", some "image/png"⟩], true⟩) [] "a").cache
        ("imgur-" ++ "a") = some ["L"]) :=
  ⟨album_fetch_failure.1 "cid" ⟨some [⟨"L", some "video/mp4"⟩], true⟩ [] "a"
      [⟨"L", some "video/mp4"⟩] rfl rfl rfl (by decide),
    album_fetch_failure.2.1 none (.httpError 500) [] "a" .missingClientId rfl,
    album_fetch_failure.2.2.1 "cid" "cid2" (.ok ⟨some [], true⟩) (.httpError 500) [] "a" rfl,
    album_fetch_failure.2.2.2 (some "cid") (.ok ⟨some [⟨"L", some "image/png"⟩], true⟩)
      [] "a" ["L"] rfl rfl⟩

/-! ### C7: cache-first idempotence -/

/-- C7: both fetchers check the process-wide cache under kind-id first and on
a hit return the cached value with no network call and an unchanged cache; on
a miss, a successful fetch reaches the network, and a second fetch for the
same id then returns the same value from the cache with no further network
call. -/
theorem cache_first_idempotence :
    (∀ clientId net cache albumId pages,
      cacheGet cache ("imgur-" ++ albumId) = some pages →
      fetchImgurAlbumPages clientId net cache albumId = ⟨.ok pages, cache, false⟩) ∧
    (∀ clientId net clientId2 net2 cache albumId pages,
      cacheGet cache ("imgur-" ++ albumId) = none →
      (fetchImgurAlbumPages clientId net cache albumId).result = .ok pages →
      (fetchImgurAlbumPages clientId net cache albumId).networkCalled = true ∧
      fetchImgurAlbumPages clientId2 net2
          (fetchImgurAlbumPages clientId net cache albumId).cache albumId =
        ⟨.ok pages, (fetchImgurAlbumPages clientId net cache albumId).cache, false⟩) ∧
    (∀ net rawNet inlineParse cache gistId cfg,
      cacheGet cache ("gist-" ++ gistId) = some cfg →
      fetchGistConfig net rawNet inlineParse cache gistId = ⟨.ok cfg, cache, false⟩) ∧
    (∀ net rawNet inlineParse net2 rawNet2 inlineParse2 cache gistId cfg,
      cacheGet cache ("gist-" ++ gistId) = none →
      (fetchGistConfig net rawNet inlineParse cache gistId).result = .ok cfg →
      (fetchGistConfig net rawNet inlineParse cache gistId).networkCalled = true ∧
      fetchGistConfig net2 rawNet2 inlineParse2
          (fetchGistConfig net rawNet inlineParse cache gistId).cache gistId =
        ⟨.ok cfg, (fetchGistConfig net rawNet inlineParse cache gistId).cache, false⟩) := by
  refine ⟨fetchImgur_hit, ?_, fetchGist_hit, ?_⟩
  · intro clientId net clientId2 net2 cache albumId pages hc h
    obtain ⟨hne, heq⟩ := fetchImgur_ok_state clientId net cache albumId pages hc h
    constructor
    · rw [heq]
    · rw [heq]
      exact fetchImgur_hit clientId2 net2 _ albumId pages
        (cacheGet_cacheSet_self cache ("imgur-" ++ albumId) pages)
  · intro net rawNet inlineParse net2 rawNet2 inlineParse2 cache gistId cfg hc h
    have heq := fetchGist_ok_state net rawNet inlineParse cache gistId cfg hc h
    constructor
    · rw [heq]
    · rw [heq]
      exact fetchGist_hit net2 rawNet2 inlineParse2 _ gistId cfg
        (cacheGet_cacheSet_self cache ("gist-" ++ gistId) cfg)

/-- C7 witness: a cache hit for each fetcher, and a miss-then-retry pair for
each fetcher in which only the first call reaches the network. -/
theorem cache_first_idempotence_witness :
    fetchImgurAlbumPages none (.httpError 500) [("imgur-a", ["p1"])] "a" =
      ⟨.ok ["p1"], [("imgur-a", ["p1"])], false⟩ ∧
    ((fetchImgurAlbumPages (some "cid") (.ok ⟨some [⟨"L", some "image/png"⟩], true⟩)
        [] "a").networkCalled = true ∧
      fetchImgurAlbumPages none (.httpError 500)
          (fetchImgurAlbumPages (some "cid")
            (.ok ⟨some [⟨"L", some "image/png"⟩], true⟩) [] "a").cache "a" =
        ⟨.ok ["L"],
          (fetchImgurAlbumPages (some "cid")
            (.ok ⟨some [⟨"L", some "image/png"⟩], true⟩) [] "a").cache, false⟩) ∧
    fetchGistConfig (.httpError 500) (.error ()) (.error ())
        [("gist-g", ⟨"T", none, none, none, none, [], []⟩)] "g" =
      ⟨.ok ⟨"T", none, none, none, none, [], []⟩,
        [("gist-g", ⟨"T", none, none, none, none, [], []⟩)], false⟩ ∧
    ((fetchGistConfig
        (.ok (Json.obj [("files", Json.obj [("f", Json.obj
          [("filename", Json.str "c.json"), ("raw_url", Json.str "u")])])]))
        (.ok (.ok (Json.obj [("title", Json.str "T"), ("chapters", Json.obj [])])))
        (.error ()) [] "g").networkCalled = true ∧
      fetchGistConfig (.httpError 500) (.error ()) (.error ())
          (fetchGistConfig
            (.ok (Json.obj [("files", Json.obj [("f", Json.obj
              [("filename", Json.str "c.json"), ("raw_url", Json.str "u")])])]))
            (.ok (.ok (Json.obj [("title", Json.str "T"), ("chapters", Json.obj [])])))
            (.error ()) [] "g").cache "g" =
        ⟨.ok ⟨"T", none, none, none, none, [], []⟩,
          (fetchGistConfig
            (.ok (Json.obj [("files", Json.obj [("f", Json.obj
              [("filename", Json.str "c.json"), ("raw_url", Json.str "u")])])]))
            (.ok (.ok (Json.obj [("title", Json.str "T"), ("chapters", Json.obj [])])))
            (.error ()) [] "g").cache, false⟩) :=
  ⟨cache_first_idempotence.1 none (.httpError 500) [("imgur-a", ["p1"])] "a" ["p1"] rfl,
    cache_first_idempotence.2.1 (some "cid")
      (.ok ⟨some [⟨"L", some "image/png"⟩], true⟩) none (.httpError 500) [] "a" ["L"]
      rfl rfl,
    cache_first_idempotence.2.2.1 (.httpError 500) (.error ()) (.error ())
      [("gist-g", ⟨"T", none, none, none, none, [], []⟩)] "g"
      ⟨"T", none, none, none, none, [], []⟩ rfl,
    cache_first_idempotence.2.2.2
      (.ok (Json.obj [("files", Json.obj [("f", Json.obj
        [("filename", Json.str "c.json"), ("raw_url", Json.str "u")])])]))
      (.ok (.ok (Json.obj [("title", Json.str "T"), ("chapters", Json.obj [])])))
      (.error ()) (.httpError 500) (.error ()) (.error ()) [] "g"
      ⟨"T", none, none, none, none, [], []⟩ rfl rfl⟩

/-! ### C8: manifest validation errors -/

theorem validateRequiredString_ok_lookup (fields : List (String × Json))
    (key s : String) (h : validateRequiredString fields key = Except.ok s) :
    lookupField fields key ≠ none := by
  intro hn
  simp only [validateRequiredString, hn] at h
  exact Except.noConfusion h

theorem validateUrlArray_ok_arr (j : Json) (l : List String)
    (h : validateUrlArray j = Except.ok l) : ∃ es, j = Json.arr es := by
  cases j <;> first
    | exact ⟨_, rfl⟩
    | exact Except.noConfusion h

theorem validateGroupEntries_ok_mem (k : String) (v : Json) :
    ∀ (gs : List (String × Json)) (r : List (String × List String)),
      validateGroupEntries gs = Except.ok r → (k, v) ∈ gs →
      ∃ l, validateUrlArray v = Except.ok l := by
  intro gs
  induction gs with
  | nil => intro r _ hmem; cases hmem
  | cons p rest ih =>
    intro r h hmem
    simp only [validateGroupEntries] at h
    split at h
    · exact Except.noConfusion h
    · next urls hu =>
      split at h
      · exact Except.noConfusion h
      · next tail ht =>
        rcases List.mem_cons.mp hmem with heq | hmem2
        · have hv : v = p.2 := congrArg Prod.snd heq
          rw [hv]
          exact ⟨urls, hu⟩
        · exact ih tail ht hmem2

theorem validateChapterEntries_ok_mem (k : String) (v : Json) :
    ∀ (cs : List (String × Json)) (r : List (String × Chapter)),
      validateChapterEntries cs = Except.ok r → (k, v) ∈ cs →
      ∃ c, chapterSchemaParse v = Except.ok c := by
  intro cs
  induction cs with
  | nil => intro r _ hmem; cases hmem
  | cons p rest ih =>
    intro r h hmem
    simp only [validateChapterEntries] at h
    split at h
    · exact Except.noConfusion h
    · next c hc =>
      split at h
      · exact Except.noConfusion h
      · next tail ht =>
        rcases List.mem_cons.mp hmem with heq | hmem2
        · have hv : v = p.2 := congrArg Prod.snd heq
          rw [hv]
          exact ⟨c, hc⟩
        · exact ih tail ht hmem2

theorem chapterSchemaParse_ok_groups (fields : List (String × Json)) (c : Chapter)
    (h : chapterSchemaParse (Json.obj fields) = Except.ok c)
    (g : Json) (hg : lookupField fields "groups" = some g) :
    ∃ r, validateGroupsJson g = Except.ok r := by
  simp only [chapterSchemaParse] at h
  split at h
  · exact Except.noConfusion h
  · split at h
    · exact Except.noConfusion h
    · split at h
      · next hnone => rw [hg] at hnone; exact Option.noConfusion hnone
      · next g2 hsome =>
        rw [hg] at hsome
        have he : g = g2 := Option.some.inj hsome
        subst he
        split at h
        · exact Except.noConfusion h
        · next r hr => exact ⟨r, hr⟩

theorem gistConfigSchemaParse_ok_title (fields : List (String × Json)) (cfg : GistConfig)
    (h : gistConfigSchemaParse (Json.obj fields) = Except.ok cfg) :
    ∃ s, validateRequiredString fields "title" = Except.ok s := by
  simp only [gistConfigSchemaParse] at h
  split at h
  · exact Except.noConfusion h
  · next title hTitle => exact ⟨title, hTitle⟩

theorem gistConfigSchemaParse_ok_chapters (fields : List (String × Json))
    (cfg : GistConfig) (cj : Json)
    (h : gistConfigSchemaParse (Json.obj fields) = Except.ok cfg)
    (hcj : lookupField fields "chapters" = some cj) :
    ∃ chs, validateChaptersJson cj = Except.ok chs := by
  simp only [gistConfigSchemaParse] at h
  split at h
  · exact Except.noConfusion h
  · split at h
    · exact Except.noConfusion h
    · split at h
      · exact Except.noConfusion h
      · split at h
        · exact Except.noConfusion h
        · split at h
          · exact Except.noConfusion h
          · split at h
            · exact Except.noConfusion h
            · split at h
              · next hnone => rw [hcj] at hnone; exact Option.noConfusion hnone
              · next c2 hsome =>
                rw [hcj] at hsome
                have he : cj = c2 := Option.some.inj hsome
                subst he
                split at h
                · exact Except.noConfusion h
                · next chs hchs => exact ⟨chs, hchs⟩

/-- C8: a decoded JSON value with no title field never validates (it fails
with a SchemaError — the validator's only error type — and validation is a
pure function with no network or disk access), and a value whose chapters
record contains a chapter whose groups record binds a non-array value never
validates either. -/
theorem manifest_validation_schema_error :
    (∀ j, jsGetField j "title" = none →
      ∃ e, gistConfigSchemaParse j = Except.error e) ∧
    (∀ fields chPairs chKey chFields gPairs gKey gVal,
      lookupField fields "chapters" = some (Json.obj chPairs) →
      (chKey, Json.obj chFields) ∈ chPairs →
      lookupField chFields "groups" = some (Json.obj gPairs) →
      (gKey, gVal) ∈ gPairs →
      (∀ es, gVal ≠ Json.arr es) →
      ∃ e, gistConfigSchemaParse (Json.obj fields) = Except.error e) := by
  constructor
  · intro j hj
    cases j
    case obj fields =>
      cases hr : gistConfigSchemaParse (Json.obj fields) with
      | error e => exact ⟨e, rfl⟩
      | ok cfg =>
        obtain ⟨s, hs⟩ := gistConfigSchemaParse_ok_title fields cfg hr
        exact absurd hj (validateRequiredString_ok_lookup fields "title" s hs)
    all_goals exact ⟨⟨[], "Expected object"⟩, rfl⟩
  · intro fields chPairs chKey chFields gPairs gKey gVal hch hmemc hg hmemg hnotarr
    cases hr : gistConfigSchemaParse (Json.obj fields) with
    | error e => exact ⟨e, rfl⟩
    | ok cfg =>
      exfalso
      obtain ⟨chs, hchs⟩ :=
        gistConfigSchemaParse_ok_chapters fields cfg (Json.obj chPairs) hr hch
      have hent : validateChapterEntries chPairs = Except.ok chs := hchs
      obtain ⟨c, hcok⟩ :=
        validateChapterEntries_ok_mem chKey (Json.obj chFields) chPairs chs hent hmemc
      obtain ⟨r, hgok⟩ :=
        chapterSchemaParse_ok_groups chFields c hcok (Json.obj gPairs) hg
      have hge : validateGroupEntries gPairs = Except.ok r := hgok
      obtain ⟨l, hu⟩ := validateGroupEntries_ok_mem gKey gVal gPairs r hge hmemg
      obtain ⟨es, hes⟩ := validateUrlArray_ok_arr gVal l hu
      exact hnotarr es hes

/-- C8 witness: the empty object (no title) fails to validate, and so does a
manifest whose only chapter binds a string (not an array) under a group
name. -/
theorem manifest_validation_witness :
    (∃ e, gistConfigSchemaParse (Json.obj []) = Except.error e) ∧
    (∃ e, gistConfigSchemaParse (Json.obj
        [("title", Json.str "T"),
         ("chapters", Json.obj
            [("1", Json.obj [("title", Json.str "c"),
              ("groups", Json.obj [("g", Json.str "x")])])])]) = Except.error e) :=
  ⟨manifest_validation_schema_error.1 (Json.obj []) rfl,
    manifest_validation_schema_error.2
      [("title", Json.str "T"),
       ("chapters", Json.obj
          [("1", Json.obj [("title", Json.str "c"),
            ("groups", Json.obj [("g", Json.str "x")])])])]
      [("1", Json.obj [("title", Json.str "c"),
        ("groups", Json.obj [("g", Json.str "x")])])]
      "1" [("title", Json.str "c"), ("groups", Json.obj [("g", Json.str "x")])]
      [("g", Json.str "x")] "g" (Json.str "x")
      rfl (List.mem_singleton.mpr rfl) rfl (List.mem_singleton.mpr rfl)
      (fun _ hes => Json.noConfusion hes)⟩

end ProxyReader
